import Mathlib

/-!
# Verification of the chrome-bookmarks navigator and favicon cache

Shallow embedding of `src/scripts/bookmarks.ts` (with the data model of
`src/lib/models.ts`): the bookmark-tree navigation state machine driven by
the main interactive loop, the choice-list construction (`buildChoices`),
and the favicon loading / caching / lock-degradation protocol
(`loadFavicons` / `databaseLockedPrompt`).
-/

namespace ChromeBookmarks

/-- Decidable equality for `Except`, used to evaluate step results on
concrete inputs. -/
instance {ε α : Type} [DecidableEq ε] [DecidableEq α] : DecidableEq (Except ε α)
  | .ok a, .ok b =>
      match decEq a b with
      | isTrue h => isTrue (by rw [h])
      | isFalse h => isFalse (by intro e; cases e; exact h rfl)
  | .error a, .error b =>
      match decEq a b with
      | isTrue h => isTrue (by rw [h])
      | isFalse h => isFalse (by intro e; cases e; exact h rfl)
  | .ok _, .error _ => isFalse nofun
  | .error _, .ok _ => isFalse nofun

/-- A node of the bookmark tree (`src/lib/models.ts`): the tagged union of
`Folder` (`type: "folder"`, owning an ordered `children` list, `url`
undefined) and `Bookmark` (`type: "url"`, owning a `url`, `children`
undefined).  Fields of `Base` that the script never reads (`id`, `guid`,
the timestamps, the non-`Nickname` metadata) are carried by neither
variant; `nickname` embeds `meta_info?.Nickname`. -/
inductive Node where
  | folder (name : String) (nickname : Option String) (children : List Node)
  | link (name : String) (nickname : Option String) (url : String)
deriving Repr

mutual

/-- Decidable equality for `Node` (the nested `children` list prevents
automatic derivation). -/
def Node.decEq : (a b : Node) → Decidable (a = b)
  | .folder n₁ k₁ c₁, .folder n₂ k₂ c₂ =>
      match String.decEq n₁ n₂, (inferInstance : DecidableEq (Option String)) k₁ k₂,
          Node.decEqList c₁ c₂ with
      | isTrue h₁, isTrue h₂, isTrue h₃ => isTrue (by rw [h₁, h₂, h₃])
      | isFalse h, _, _ => isFalse (by intro e; cases e; exact h rfl)
      | _, isFalse h, _ => isFalse (by intro e; cases e; exact h rfl)
      | _, _, isFalse h => isFalse (by intro e; cases e; exact h rfl)
  | .link n₁ k₁ u₁, .link n₂ k₂ u₂ =>
      match String.decEq n₁ n₂, (inferInstance : DecidableEq (Option String)) k₁ k₂,
          String.decEq u₁ u₂ with
      | isTrue h₁, isTrue h₂, isTrue h₃ => isTrue (by rw [h₁, h₂, h₃])
      | isFalse h, _, _ => isFalse (by intro e; cases e; exact h rfl)
      | _, isFalse h, _ => isFalse (by intro e; cases e; exact h rfl)
      | _, _, isFalse h => isFalse (by intro e; cases e; exact h rfl)
  | .folder _ _ _, .link _ _ _ => isFalse nofun
  | .link _ _ _, .folder _ _ _ => isFalse nofun

/-- Decidable equality for lists of `Node`, mutually with `Node.decEq`. -/
def Node.decEqList : (a b : List Node) → Decidable (a = b)
  | [], [] => isTrue rfl
  | [], _ :: _ => isFalse nofun
  | _ :: _, [] => isFalse nofun
  | a :: as, b :: bs =>
      match Node.decEq a b, Node.decEqList as bs with
      | isTrue h₁, isTrue h₂ => isTrue (by rw [h₁, h₂])
      | isFalse h, _ => isFalse (by intro e; cases e; exact h rfl)
      | _, isFalse h => isFalse (by intro e; cases e; exact h rfl)

end

instance : DecidableEq Node := Node.decEq

/-- `item.name` (a `Base` field, present on both variants). -/
def Node.name : Node → String
  | .folder n _ _ => n
  | .link n _ _ => n

/-- `item.children ?? []`: a folder's children; `undefined ?? []`, i.e. the
empty list, for a bookmark (line 96 of `bookmarks.ts`). -/
def Node.childrenOrEmpty : Node → List Node
  | .folder _ _ cs => cs
  | .link _ _ _ => []

/-- The navigation state of the main loop: the mutable `bookmarks`
variable (the children of the level being viewed) and `historyStack`.
`bookmarks` is an `Option` because `historyStack.pop()!` on an empty array
yields `undefined` (the `!` is only a type assertion), which the mutable
variable can then hold; `none` models that `undefined`. -/
structure NavState where
  bookmarks : Option (List Node)
  historyStack : List (List Node)
deriving Repr, DecidableEq

/-- `OptionValue = "go-back" | Folder | Bookmark`: the value carried by a
choice, line 31 of `bookmarks.ts`. -/
inductive OptionValue where
  | goBack
  | node (n : Node)
deriving Repr, DecidableEq

/-- A picker choice as `buildChoices` constructs it: the fields of
`Choice<OptionValue>` that the script populates. -/
structure Choice where
  name : String
  description : Option String := none
  html : Option String := none
  keyword : Option String := none
  img : Option String := none
  value : OptionValue
deriving Repr, DecidableEq

/-- A favicon map (`{ [url: string]: string }`, also the JS `Map` built by
`loadFavicons`): an insertion-ordered association list from page URL to the
inline base64 image string. -/
abbrev FavMap := List (String × String)

/-- Lookup in a favicon map (`favicons[item.url]`, `map.get`). -/
def mapLookup (m : FavMap) (k : String) : Option String :=
  (m.find? fun p => p.1 == k).map fun p => p.2

/-- `createChoice` (lines 34–51): a folder becomes a choice with an HTML
folder icon; a bookmark carries its URL as description, its nickname as
keyword, and its favicon (if cached) as image.  Both carry the item itself
as value. -/
def createChoice (favicons : FavMap) (item : Node) : Choice :=
  match item with
  | .folder nm _ _ =>
      { name := nm, html := some ("&#128193; " ++ nm), value := .node item }
  | .link nm nick url =>
      { name := nm, description := some url, keyword := nick,
        img := mapLookup favicons url, value := .node item }

/-- The synthetic "go back" choice prepended by `buildChoices` (line 58). -/
def goBackChoice : Choice :=
  { name := "⤴ ..", description := some "Go back", value := .goBack }

/-- `buildChoices` (lines 33–62): maps the current `bookmarks` list to
choices and prepends the go-back choice when `historyStack` is non-empty.
`bookmarks.map` on `undefined` throws a `TypeError`; `none` models that
failure. -/
def buildChoices (favicons : FavMap) (st : NavState) : Option (List Choice) :=
  match st.bookmarks with
  | none => none
  | some bs =>
      let choices := bs.map (createChoice favicons)
      some (if st.historyStack.length > 0 then goBackChoice :: choices else choices)

/-- `lastSelection` as returned by the picker: either the synthetic
`"go-back"` string or the selected tree node. -/
inductive Selection where
  | goBack
  | item (n : Node)
deriving Repr, DecidableEq

/-- What one iteration of the main loop does with a selection. -/
inductive Outcome where
  | wentBack
  | descendedInto
  | opened (url : String)
deriving Repr, DecidableEq

/-- One dispatch of the main loop (lines 86–103) on a selection.

* `"go-back"` (lines 86–89): `bookmarks = historyStack.pop()!` — JS `pop`
  removes and returns the LAST array element, or `undefined` on an empty
  array (the `!` performs no runtime check), then the loop continues.
* a folder (lines 93–97): push the old `bookmarks` onto the stack, then
  `bookmarks = bookmarks.find((b) => b.name === name)!.children ?? []` —
  the new level is looked up BY NAME in the old list; a failed `find`
  (`undefined.children`) or an `undefined` `bookmarks` is a `TypeError`.
* a url (lines 100–103): `exec(open url)` and break, touching no state. -/
def navStep (st : NavState) (sel : Selection) : Except String (NavState × Outcome) :=
  match sel with
  | .goBack =>
      .ok (⟨st.historyStack.getLast?, st.historyStack.dropLast⟩, .wentBack)
  | .item n =>
      match n with
      | .folder nm _ _ =>
          match st.bookmarks with
          | none => .error "TypeError: cannot read properties of undefined"
          | some bs =>
              match bs.find? fun b => b.name == nm with
              | none => .error "TypeError: cannot read properties of undefined"
              | some it =>
                  .ok (⟨some it.childrenOrEmpty, st.historyStack ++ [bs]⟩, .descendedInto)
      | .link _ _ url => .ok (st, .opened url)

/-! ## Favicon loading (`loadFavicons` / `databaseLockedPrompt`) -/

/-- A row of the favicon query: `{ page_url: string; image_data: Buffer }`
(line 153); the blob is a byte list. -/
structure BookmarkFavicon where
  page_url : String
  image_data : List Nat
deriving Repr, DecidableEq

/-- The standard base64 alphabet used by `Buffer.toString("base64")`. -/
def base64Alphabet : List Char :=
  "ABCDEFGHIJKLMNOPQRSTUVWXYZabcdefghijklmnopqrstuvwxyz0123456789+/".toList

/-- One 6-bit group to its base64 character. -/
def base64Char (n : Nat) : Char := base64Alphabet.getD (n % 64) 'A'

/-- `Buffer.toString("base64")`: standard base64 with `=` padding. -/
def base64Encode : List Nat → String
  | [] => ""
  | [b₁] =>
      String.mk [base64Char (b₁ / 4), base64Char (b₁ % 4 * 16)] ++ "=="
  | [b₁, b₂] =>
      String.mk [base64Char (b₁ / 4), base64Char (b₁ % 4 * 16 + b₂ / 16),
        base64Char (b₂ % 16 * 4)] ++ "="
  | b₁ :: b₂ :: b₃ :: rest =>
      String.mk [base64Char (b₁ / 4), base64Char (b₁ % 4 * 16 + b₂ / 16),
        base64Char (b₂ % 16 * 4 + b₃ / 64), base64Char (b₃ % 64)]
      ++ base64Encode rest

/-- Line 182: ``data:image/jpeg;base64,${image_data.toString("base64")}``. -/
def faviconB64 (image_data : List Nat) : String :=
  "data:image/jpeg;base64," ++ base64Encode image_data

/-- JS `Map.prototype.set`: replace the value of an existing key in place
(keeping insertion order), else append the new pair at the end. -/
def mapSet (m : FavMap) (k v : String) : FavMap :=
  if m.any fun p => p.1 == k then
    m.map fun p => if p.1 == k then (k, v) else p
  else m ++ [(k, v)]

/-- The `reduce` of lines 180–185: fold the query rows into a `Map`,
encoding each image and setting it under its `page_url` (later rows
overwrite earlier ones). -/
def buildB64Map (rows : List BookmarkFavicon) : FavMap :=
  rows.foldl (fun agg row => mapSet agg row.page_url (faviconB64 row.image_data)) []

/-- Number of entries of a favicon map whose key is `k` (a JS `Map` always
has at most one). -/
def keyCount (m : FavMap) (k : String) : Nat := m.countP fun p => p.1 == k

/-- Outcome of one `db.all` query as the sqlite3 driver reports it to the
callback of lines 159–168: rows, an error with `code === "SQLITE_BUSY"`,
or any other error. -/
inductive QueryOutcome where
  | rows (rs : List BookmarkFavicon)
  | errBusy
  | errOther (msg : String)
deriving Repr, DecidableEq

/-- What the promise of lines 155–170 settles to.  The callback runs
`resolve("locked")` (for a busy error), then `reject(err)` (for any error),
then `resolve(rows)` unconditionally — but a promise keeps only its FIRST
settlement, so: busy error ⇒ `locked`, other error ⇒ rejection, no error ⇒
the rows. -/
inductive QuerySettled where
  | resolvedRows (rs : List BookmarkFavicon)
  | resolvedLocked
  | rejected (msg : String)
deriving Repr, DecidableEq

/-- First-settlement semantics of the callback. -/
def settle : QueryOutcome → QuerySettled
  | .rows rs => .resolvedRows rs
  | .errBusy => .resolvedLocked
  | .errOther msg => .rejected msg

/-- A user answer to `databaseLockedPrompt` (lines 201–204). -/
inductive LockChoice where
  | retry
  | without
deriving Repr, DecidableEq

/-- Accesses to the favicon store performed by `loadFavicons`: opening the
sqlite database (line 147), running the query (line 156), closing the
connection (line 172). -/
inductive StoreEvent where
  | dbOpen
  | dbQuery
  | dbClose
deriving Repr, DecidableEq

/-- How a `loadFavicons` call can fail to return a map: a non-busy store
error rejects the awaited promise and propagates (`StoreReadError`); the
two `noMore…` cases only flag an exhausted test environment (more query
attempts or prompts than the environment scripted), never a program
behaviour. -/
inductive LoadError where
  | fatal (msg : String)
  | noMoreOutcomes
  | noMoreChoices
deriving Repr, DecidableEq

/-- The observable result of one `loadFavicons` call: its return value (or
propagated error), the durable cache slot afterwards, and the trace of
store accesses it performed. -/
structure LoadOutput where
  result : Except LoadError FavMap
  cache : Option FavMap
  trace : List StoreEvent
deriving Repr

/-- The query path of `loadFavicons` (lines 145–193, reached when the
cached-map check of lines 141–143 does not fire) with
`databaseLockedPrompt` (lines 195–215) inlined at its call/retry sites.
`cache` is the durable `cache.favicons` slot; `outcomes` scripts the
store's answer to each successive query and `choices` the user's answer to
each successive locked prompt.

* Lines 147–170: open the database, query; the promise settles per
  `settle`.  A rejection makes the `await` throw, so `db.close()`
  (line 172) is NOT reached on that path and the error propagates.
* Lines 176–178: on `"locked"`, prompt.  `Continue without Favicons`
  returns a fresh empty map, leaving the cache slot untouched; `Retry`
  re-invokes `loadFavicons(file, false)`.
* Lines 180–192: on rows, build the base64 map, write it to the durable
  cache slot, and return it. -/
def runLoadQuery (cache : Option FavMap) (outcomes : List QueryOutcome)
    (choices : List LockChoice) : LoadOutput :=
  match outcomes with
  | [] => ⟨.error .noMoreOutcomes, cache, [.dbOpen, .dbQuery]⟩
  | oc :: rest =>
      match settle oc with
      | .rejected msg => ⟨.error (.fatal msg), cache, [.dbOpen, .dbQuery]⟩
      | .resolvedLocked =>
          match choices with
          | [] => ⟨.error .noMoreChoices, cache, [.dbOpen, .dbQuery, .dbClose]⟩
          | .without :: _ => ⟨.ok [], cache, [.dbOpen, .dbQuery, .dbClose]⟩
          | .retry :: cs =>
              let r := runLoadQuery cache rest cs
              ⟨r.result, r.cache, [.dbOpen, .dbQuery, .dbClose] ++ r.trace⟩
      | .resolvedRows rs =>
          let m := buildB64Map rs
          ⟨.ok m, some m, [.dbOpen, .dbQuery, .dbClose]⟩

/-- `loadFavicons` proper: serve from the durable cache when permitted,
otherwise run the query path.  The `Retry` recursion calls
`loadFavicons(file, false)`, whose `allowCached = false` always reaches the
query path, so `runLoadQuery` recurses into itself directly. -/
def runLoad (allowCached : Bool) (cache : Option FavMap)
    (outcomes : List QueryOutcome) (choices : List LockChoice) : LoadOutput :=
  match allowCached, cache with
  | true, some m => ⟨.ok m, some m, []⟩
  | _, _ => runLoadQuery cache outcomes choices

/-! ## Helper lemmas: choice construction -/

/-- `createChoice` never produces the synthetic go-back choice (their
`value` fields differ by construction). -/
theorem createChoice_ne_goBackChoice (favicons : FavMap) (n : Node) :
    createChoice favicons n ≠ goBackChoice := by
  cases n <;> simp [createChoice, goBackChoice]

/-- The go-back choice is not among the choices generated from the
bookmark list. -/
theorem goBackChoice_not_mem_map (favicons : FavMap) (bs : List Node) :
    goBackChoice ∉ bs.map (createChoice favicons) := by
  intro h
  obtain ⟨n, _, hn⟩ := List.mem_map.mp h
  exact createChoice_ne_goBackChoice favicons n hn

/-! ## Claims about the navigation state machine -/

/-- Claim C1, counterexample.  The claim says selecting a folder entry sets
`current` to the children of the folder the entry was built from.  The code
instead re-looks the folder up BY NAME (`bookmarks.find((b) => b.name ===
name)`), so with two same-named items the first match wins: selecting the
second folder named `A` (childless) yields the FIRST `A`'s children, not
the selected folder's own (empty) children. -/
theorem C1_descend_counterexample :
    navStep ⟨some [.folder "A" none [.link "x" none "http://x"], .folder "A" none []], []⟩
        (.item (.folder "A" none [])) =
      .ok (⟨some [.link "x" none "http://x"],
            [[.folder "A" none [.link "x" none "http://x"], .folder "A" none []]]⟩,
        .descendedInto)
    ∧ some [Node.link "x" none "http://x"] ≠ some (Node.folder "A" none []).childrenOrEmpty := by
  constructor
  · rfl
  · decide

/-- Claim C1, amended.  Selecting a folder entry pushes the current list
onto the history stack, emits `DescendedInto`, and sets `current` to the
children (or `[]`) of the FIRST item of the current list whose name equals
the selected folder's name — which is the selected folder's own children
exactly when it is that first match. -/
theorem C1_descend_uses_first_name_match (st : NavState) (bs : List Node) (nm : String)
    (nick : Option String) (cs : List Node) (it : Node)
    (hb : st.bookmarks = some bs)
    (hf : bs.find? (fun b => b.name == nm) = some it) :
    navStep st (.item (.folder nm nick cs)) =
      .ok (⟨some it.childrenOrEmpty, st.historyStack ++ [bs]⟩, .descendedInto) := by
  obtain ⟨b, hist⟩ := st
  simp only [NavState.bookmarks] at hb
  subst hb
  simp [navStep, hf]

/-- Claim C1, amended, at a concrete input: selecting the unique folder
`F` descends into its own children. -/
theorem C1_descend_uses_first_name_match_witness :
    navStep ⟨some [Node.folder "F" none [Node.link "c" none "http://c"]], []⟩
        (.item (.folder "F" none [Node.link "c" none "http://c"])) =
      .ok (⟨some [Node.link "c" none "http://c"],
            [[Node.folder "F" none [Node.link "c" none "http://c"]]]⟩, .descendedInto) :=
  C1_descend_uses_first_name_match
    ⟨some [Node.folder "F" none [Node.link "c" none "http://c"]], []⟩
    [Node.folder "F" none [Node.link "c" none "http://c"]] "F" none
    [Node.link "c" none "http://c"] (Node.folder "F" none [Node.link "c" none "http://c"])
    rfl (by decide)

/-- Claim C2: a descend (any selection whose outcome is `DescendedInto`)
immediately followed by a go-back restores the full navigation state —
`current` is the very list that was current before the descend (and the
history stack is as before). -/
theorem C2_descend_then_back_restores (st st' : NavState) (sel : Selection)
    (h : navStep st sel = .ok (st', .descendedInto)) :
    navStep st' .goBack = .ok (st, .wentBack) := by
  obtain ⟨b, hist⟩ := st
  obtain ⟨b', hist'⟩ := st'
  cases sel with
  | goBack => simp [navStep] at h
  | item n =>
    cases n with
    | link nm nick url => simp [navStep] at h
    | folder nm nick cs =>
      cases b with
      | none => simp [navStep] at h
      | some bs =>
        cases hf : bs.find? (fun x => x.name == nm) with
        | none => simp [navStep, hf] at h
        | some it =>
          simp only [navStep, hf] at h
          rw [Except.ok.injEq, Prod.mk.injEq, NavState.mk.injEq] at h
          obtain ⟨⟨h1, h2⟩, _⟩ := h
          subst h1; subst h2
          simp [navStep, List.getLast?_concat, List.dropLast_concat]

/-- Claim C2 at a concrete input: descending into `F` and going back
restores the original one-element list. -/
theorem C2_descend_then_back_restores_witness :
    navStep ⟨some [], [[Node.folder "F" none []]]⟩ .goBack =
      .ok (⟨some [Node.folder "F" none []], []⟩, .wentBack) :=
  C2_descend_then_back_restores ⟨some [Node.folder "F" none []], []⟩
    ⟨some [], [[Node.folder "F" none []]]⟩ (.item (.folder "F" none [])) (by decide)

/-- Claim C3: the entry list built over a live current list contains the
synthetic go-back entry iff the history stack is non-empty; when present
it is first and the remaining entries are exactly the image, in order, of
the current list under `createChoice`; when absent the whole list is that
image. -/
theorem C3_back_entry_iff_history_nonempty (favicons : FavMap) (bs : List Node)
    (hist : List (List Node)) (L : List Choice)
    (h : buildChoices favicons ⟨some bs, hist⟩ = some L) :
    (goBackChoice ∈ L ↔ hist ≠ [])
    ∧ (hist ≠ [] → L = goBackChoice :: bs.map (createChoice favicons))
    ∧ (hist = [] → L = bs.map (createChoice favicons)) := by
  cases hist with
  | nil =>
    simp [buildChoices] at h
    subst h
    simpa using fun x _ => createChoice_ne_goBackChoice favicons x
  | cons h0 hs =>
    simp [buildChoices] at h
    subst h
    simp

/-- Claim C3 at a concrete input: with one history entry the go-back
choice is present (history being non-empty). -/
theorem C3_back_entry_iff_history_nonempty_witness :
    goBackChoice ∈ [goBackChoice, createChoice [] (Node.link "a" none "http://a")] ↔
      ([[Node.folder "r" none []]] : List (List Node)) ≠ [] :=
  (C3_back_entry_iff_history_nonempty [] [Node.link "a" none "http://a"]
    [[Node.folder "r" none []]]
    [goBackChoice, createChoice [] (Node.link "a" none "http://a")] rfl).1

/-- Claim C4, counterexample.  The claim says selecting the back entry on
an empty history fails with an error rather than silently producing a new
state.  But `historyStack.pop()!` performs no runtime check: on an empty
stack `pop` returns `undefined`, so the step SUCCEEDS, yielding the state
whose `bookmarks` is `undefined` — no error is raised by the selection
itself. -/
theorem C4_back_on_empty_history_counterexample :
    navStep ⟨some [], []⟩ .goBack = .ok (⟨none, []⟩, .wentBack)
    ∧ ∀ e, navStep ⟨some [], []⟩ .goBack ≠ .error e := by
  refine ⟨rfl, ?_⟩
  intro e h
  exact Except.noConfusion h

/-- Claim C4, amended.  Selecting the back entry never errors: it always
emits `WentBack`, popping the most recent history entry into `current`
when the stack is non-empty, and setting `current` to `undefined` when the
stack is empty — a poisoned state whose next entry-list construction
fails. -/
theorem C4_goBack_never_errors (b : Option (List Node)) (hist tl : List (List Node))
    (top : List Node) (favicons : FavMap) :
    navStep ⟨b, hist⟩ .goBack = .ok (⟨hist.getLast?, hist.dropLast⟩, .wentBack)
    ∧ navStep ⟨b, tl ++ [top]⟩ .goBack = .ok (⟨some top, tl⟩, .wentBack)
    ∧ buildChoices favicons ⟨none, hist⟩ = none := by
  refine ⟨rfl, ?_, rfl⟩
  simp [navStep, List.getLast?_concat, List.dropLast_concat]

/-- Claim C9: selecting a link entry emits `Opened` with that link's URL
and leaves the navigation state — current list and history stack alike —
exactly as it was. -/
theorem C9_open_link_preserves_state (st : NavState) (nm : String)
    (nick : Option String) (url : String) :
    navStep st (.item (.link nm nick url)) = .ok (st, .opened url) := rfl

/-! ## Claims about the favicon cache protocol -/

/-- Claim C7: with `allowCached` (i.e. `forceRefresh = false`) and a
non-null durable cached map, `loadFavicons` returns the cached map at
once, leaves the cache slot as is, and performs no store access at all
(empty trace: no open, no query, no close). -/
theorem C7_cached_load_no_store_access (m : FavMap) (oc : List QueryOutcome)
    (ch : List LockChoice) :
    runLoad true (some m) oc ch = ⟨.ok m, some m, []⟩ := rfl

/-- Claim C5: a store error other than `SQLITE_BUSY` rejects the awaited
promise first, so the load propagates the error to its caller — it never
returns a map (empty or partial) and the cache is untouched; only the busy
condition is intercepted, handing control to the locked-prompt protocol
instead of erroring. -/
theorem C5_nonlock_error_propagates (c : Option FavMap) (e : String)
    (rest : List QueryOutcome) (cs : List LockChoice) (ch : List LockChoice) :
    runLoad false c (.errOther e :: rest) cs =
      ⟨.error (.fatal e), c, [.dbOpen, .dbQuery]⟩
    ∧ runLoad true none (.errOther e :: rest) ch =
      ⟨.error (.fatal e), none, [.dbOpen, .dbQuery]⟩
    ∧ (runLoad false c (.errBusy :: rest) (.without :: cs)).result = .ok []
    ∧ (runLoad false c (.errBusy :: rest) (.retry :: cs)).result =
      (runLoadQuery c rest cs).result :=
  ⟨rfl, rfl, rfl, rfl⟩

/-- Claim C6: on a locked store, choosing `Continue without Favicons`
returns a fresh empty mapping while the durable cache slot keeps its old
value, so a subsequent `load(false)` still serves the previously cached
map, not the empty one. -/
theorem C6_continue_without_leaves_cache (m : FavMap) (rest : List QueryOutcome)
    (cs : List LockChoice) (oc' : List QueryOutcome) (ch' : List LockChoice) :
    runLoad false (some m) (.errBusy :: rest) (.without :: cs) =
      ⟨.ok [], some m, [.dbOpen, .dbQuery, .dbClose]⟩
    ∧ runLoad true (some m) oc' ch' = ⟨.ok m, some m, []⟩ :=
  ⟨rfl, rfl⟩

/-- Claim C8, counterexample.  The claim says the connection is closed on
every path including a fatal query error.  But `db.close()` sits after the
`await`: when the promise rejects, the `await` throws and the close is
skipped — the trace of a fatal-error run opens the database and never
closes it. -/
theorem C8_unclosed_on_fatal_counterexample :
    (runLoad false none [.errOther "SQLITE_CORRUPT"] []).result =
      .error (.fatal "SQLITE_CORRUPT")
    ∧ (runLoad false none [.errOther "SQLITE_CORRUPT"] []).trace =
      [.dbOpen, .dbQuery]
    ∧ StoreEvent.dbClose ∉ (runLoad false none [.errOther "SQLITE_CORRUPT"] []).trace := by
  refine ⟨rfl, rfl, ?_⟩
  decide

/-- Connection accounting for the query path: runs that return a map close
every connection they open; runs that propagate a fatal store error leave
exactly one connection (the last one opened) unclosed. -/
theorem runLoadQuery_close_count (c : Option FavMap) (oc : List QueryOutcome)
    (ch : List LockChoice) :
    (∀ m, (runLoadQuery c oc ch).result = .ok m →
      (runLoadQuery c oc ch).trace.count .dbClose = (runLoadQuery c oc ch).trace.count .dbOpen)
    ∧ ∀ e, (runLoadQuery c oc ch).result = .error (.fatal e) →
      (runLoadQuery c oc ch).trace.count .dbClose + 1 =
        (runLoadQuery c oc ch).trace.count .dbOpen := by
  induction oc generalizing ch with
  | nil =>
    constructor
    · intro m hm; simp [runLoadQuery] at hm
    · intro e he; simp [runLoadQuery] at he
  | cons o rest ih =>
    cases o with
    | rows rs =>
      constructor
      · intro m _
        show List.count StoreEvent.dbClose [StoreEvent.dbOpen, .dbQuery, .dbClose] =
          List.count StoreEvent.dbOpen [StoreEvent.dbOpen, .dbQuery, .dbClose]
        decide
      · intro e he; simp [runLoadQuery, settle] at he
    | errOther msg =>
      constructor
      · intro m hm; simp [runLoadQuery, settle] at hm
      · intro e _
        show List.count StoreEvent.dbClose [StoreEvent.dbOpen, .dbQuery] + 1 =
          List.count StoreEvent.dbOpen [StoreEvent.dbOpen, .dbQuery]
        decide
    | errBusy =>
      cases ch with
      | nil =>
        constructor
        · intro m hm; simp [runLoadQuery, settle] at hm
        · intro e he; simp [runLoadQuery, settle] at he
      | cons choice cs =>
        cases choice with
        | without =>
          constructor
          · intro m _
            show List.count StoreEvent.dbClose [StoreEvent.dbOpen, .dbQuery, .dbClose] =
              List.count StoreEvent.dbOpen [StoreEvent.dbOpen, .dbQuery, .dbClose]
            decide
          · intro e he; simp [runLoadQuery, settle] at he
        | retry =>
          obtain ⟨ih1, ih2⟩ := ih cs
          have e1 : List.count StoreEvent.dbClose
              [StoreEvent.dbOpen, StoreEvent.dbQuery, StoreEvent.dbClose] = 1 := by decide
          have e2 : List.count StoreEvent.dbOpen
              [StoreEvent.dbOpen, StoreEvent.dbQuery, StoreEvent.dbClose] = 1 := by decide
          constructor
          · intro m hm
            have h1 := ih1 m hm
            show List.count StoreEvent.dbClose
                ([StoreEvent.dbOpen, .dbQuery, .dbClose] ++ (runLoadQuery c rest cs).trace) =
              List.count StoreEvent.dbOpen
                ([StoreEvent.dbOpen, .dbQuery, .dbClose] ++ (runLoadQuery c rest cs).trace)
            rw [List.count_append, List.count_append, e1, e2]
            omega
          · intro e he
            have h2 := ih2 e he
            show List.count StoreEvent.dbClose
                ([StoreEvent.dbOpen, .dbQuery, .dbClose] ++ (runLoadQuery c rest cs).trace) + 1 =
              List.count StoreEvent.dbOpen
                ([StoreEvent.dbOpen, .dbQuery, .dbClose] ++ (runLoadQuery c rest cs).trace)
            rw [List.count_append, List.count_append, e1, e2]
            omega

/-- Claim C8, amended.  The connection is closed on the successful-query
and locked paths — any run of `loadFavicons` that returns a map has closed
exactly as many connections as it opened — but on a fatal query error the
rejection propagates before `db.close()` runs, leaving the last opened
connection unclosed (closes + 1 = opens). -/
theorem C8_close_accounting (a : Bool) (c : Option FavMap) (oc : List QueryOutcome)
    (ch : List LockChoice) :
    (∀ m, (runLoad a c oc ch).result = .ok m →
      (runLoad a c oc ch).trace.count .dbClose = (runLoad a c oc ch).trace.count .dbOpen)
    ∧ ∀ e, (runLoad a c oc ch).result = .error (.fatal e) →
      (runLoad a c oc ch).trace.count .dbClose + 1 =
        (runLoad a c oc ch).trace.count .dbOpen := by
  match a, c with
  | true, some m => exact ⟨fun _ _ => rfl, fun e he => Except.noConfusion he⟩
  | true, none => exact runLoadQuery_close_count none oc ch
  | false, c => exact runLoadQuery_close_count c oc ch

/-- Claim C8, amended, at a concrete input: a successful one-query run
closes as many connections as it opens. -/
theorem C8_close_accounting_witness :
    (runLoad false none [.rows []] []).trace.count .dbClose =
      (runLoad false none [.rows []] []).trace.count .dbOpen :=
  (C8_close_accounting false none [.rows []] []).1 [] rfl

/-! ## Helper lemmas: JS `Map.set` semantics -/

/-- Setting an existing key overwrites its value: looking the key up after
the in-place update yields the new value. -/
theorem lookup_overwrite (m : FavMap) (k v : String)
    (h : (m.any fun p => p.1 == k) = true) :
    mapLookup (m.map fun p => if p.1 == k then (k, v) else p) k = some v := by
  induction m with
  | nil => simp at h
  | cons p ps ih =>
    by_cases hp : (p.1 == k) = true
    · rw [List.map_cons, if_pos hp]
      unfold mapLookup
      rw [List.find?_cons_of_pos _ (by simp)]
      rfl
    · have h' : (ps.any fun q => q.1 == k) = true := by
        simpa [List.any_cons, hp] using h
      rw [List.map_cons, if_neg hp]
      unfold mapLookup
      rw [List.find?_cons_of_neg _ (by simpa using hp)]
      exact ih h'

/-- Setting a fresh key appends it: looking it up afterwards yields the
new value. -/
theorem lookup_append_new (m : FavMap) (k v : String)
    (h : (m.any fun p => p.1 == k) = false) :
    mapLookup (m ++ [(k, v)]) k = some v := by
  have hn : m.find? (fun p => p.1 == k) = none := by
    rw [List.find?_eq_none]
    intro p hp
    exact (List.any_eq_false.mp h) p hp
  simp [mapLookup, List.find?_append, hn]

/-- `Map.set` then `Map.get` of the same key yields the just-set value. -/
theorem mapLookup_mapSet_self (m : FavMap) (k v : String) :
    mapLookup (mapSet m k v) k = some v := by
  unfold mapSet
  by_cases h : (m.any fun p => p.1 == k) = true
  · rw [if_pos h]; exact lookup_overwrite m k v h
  · rw [if_neg h]
    exact lookup_append_new m k v (Bool.not_eq_true _ ▸ Bool.of_not_eq_true h)

/-- The overwrite-in-place pass leaves every other key's lookup alone. -/
theorem lookup_overwrite_ne (m : FavMap) (k k' v : String) (hk : k' ≠ k) :
    mapLookup (m.map fun p => if p.1 == k then (k, v) else p) k' = mapLookup m k' := by
  have hkk : ¬((k == k') = true) := by
    simp only [beq_iff_eq]; exact fun e => hk e.symm
  induction m with
  | nil => rfl
  | cons p ps ih =>
    by_cases hp : (p.1 == k) = true
    · have hpk' : ¬((p.1 == k') = true) := by rw [eq_of_beq hp]; exact hkk
      rw [List.map_cons, if_pos hp]
      unfold mapLookup
      rw [List.find?_cons_of_neg (p := fun (q : String × String) => q.1 == k') _ (by simpa using hkk),
        List.find?_cons_of_neg (p := fun (q : String × String) => q.1 == k') _ hpk']
      exact ih
    · rw [List.map_cons, if_neg hp]
      by_cases hq : (p.1 == k') = true
      · unfold mapLookup
        rw [List.find?_cons_of_pos (p := fun (q : String × String) => q.1 == k') _ hq,
          List.find?_cons_of_pos (p := fun (q : String × String) => q.1 == k') _ hq]
      · unfold mapLookup
        rw [List.find?_cons_of_neg (p := fun (q : String × String) => q.1 == k') _ hq,
          List.find?_cons_of_neg (p := fun (q : String × String) => q.1 == k') _ hq]
        exact ih

/-- Appending a fresh key leaves every other key's lookup alone. -/
theorem lookup_append_ne (m : FavMap) (k k' v : String) (hk : k' ≠ k) :
    mapLookup (m ++ [(k, v)]) k' = mapLookup m k' := by
  have hkk : (k == k') = false := by
    rw [beq_eq_false_iff_ne]; exact fun e => hk e.symm
  cases hm : m.find? (fun p => p.1 == k') with
  | some q => simp [mapLookup, List.find?_append, hm]
  | none => simp [mapLookup, List.find?_append, hm, hkk]

/-- `Map.set` of one key does not change the lookup of any other key. -/
theorem mapLookup_mapSet_ne (m : FavMap) (k k' v : String) (hk : k' ≠ k) :
    mapLookup (mapSet m k v) k' = mapLookup m k' := by
  unfold mapSet
  by_cases h : (m.any fun p => p.1 == k) = true
  · rw [if_pos h]; exact lookup_overwrite_ne m k k' v hk
  · rw [if_neg h]; exact lookup_append_ne m k k' v hk

/-- The overwrite-in-place pass preserves the number of entries keyed by
the set key. -/
theorem keyCount_overwrite (m : FavMap) (k v : String) :
    keyCount (m.map fun p => if p.1 == k then (k, v) else p) k = keyCount m k := by
  induction m with
  | nil => rfl
  | cons p ps ih =>
    unfold keyCount at ih ⊢
    by_cases hp : (p.1 == k) = true
    · rw [List.map_cons, if_pos hp, List.countP_cons, List.countP_cons, ih]
      simp [hp]
    · rw [List.map_cons, if_neg hp, List.countP_cons, List.countP_cons, ih]

/-- After `Map.set` a key that occurred at most once occurs exactly
once. -/
theorem keyCount_mapSet_self (m : FavMap) (k v : String) (h : keyCount m k ≤ 1) :
    keyCount (mapSet m k v) k = 1 := by
  unfold mapSet
  by_cases ha : (m.any fun p => p.1 == k) = true
  · rw [if_pos ha, keyCount_overwrite]
    obtain ⟨x, hx, hpx⟩ := List.any_eq_true.mp ha
    have hpos : 0 < keyCount m k := by
      unfold keyCount
      rw [List.countP_pos_iff]
      exact ⟨x, hx, hpx⟩
    omega
  · rw [if_neg ha]
    have ha' : (m.any fun p => p.1 == k) = false := by
      rw [← Bool.not_eq_true]; exact ha
    have h0 : keyCount m k = 0 := by
      unfold keyCount
      rw [List.countP_eq_zero]
      intro p hp
      exact List.any_eq_false.mp ha' p hp
    unfold keyCount at h0 ⊢
    rw [List.countP_append, h0]
    simp

/-- The overwrite-in-place pass preserves the count of every other key. -/
theorem keyCount_overwrite_ne (m : FavMap) (k k' v : String) (hk : k' ≠ k) :
    keyCount (m.map fun p => if p.1 == k then (k, v) else p) k' = keyCount m k' := by
  have hkk : ¬((k == k') = true) := by
    simp only [beq_iff_eq]; exact fun e => hk e.symm
  induction m with
  | nil => rfl
  | cons p ps ih =>
    unfold keyCount at ih ⊢
    rw [List.map_cons, List.countP_cons, List.countP_cons, ih]
    congr 1
    by_cases hp : (p.1 == k) = true
    · have hpk' : ¬((p.1 == k') = true) := by rw [eq_of_beq hp]; exact hkk
      rw [if_pos hp]
      have hkv : (((k, v) : String × String).1 == k') = (k == k') := rfl
      rw [hkv, if_neg hkk, if_neg hpk']
    · rw [if_neg hp]

/-- `Map.set` of one key does not change the count of any other key. -/
theorem keyCount_mapSet_ne (m : FavMap) (k k' v : String) (hk : k' ≠ k) :
    keyCount (mapSet m k v) k' = keyCount m k' := by
  have hkk : ¬((k == k') = true) := by
    simp only [beq_iff_eq]; exact fun e => hk e.symm
  unfold mapSet
  by_cases ha : (m.any fun p => p.1 == k) = true
  · rw [if_pos ha]
    exact keyCount_overwrite_ne m k k' v hk
  · rw [if_neg ha]
    unfold keyCount
    rw [List.countP_append]
    simp [hkk]

/-- Through the whole reduce, every key keeps at most one entry (the `Map`
key-uniqueness invariant). -/
theorem keyCount_buildB64Map_le (rows : List BookmarkFavicon) :
    ∀ (agg : FavMap) (url : String), keyCount agg url ≤ 1 →
      keyCount (rows.foldl
        (fun agg row => mapSet agg row.page_url (faviconB64 row.image_data)) agg) url ≤ 1 := by
  induction rows with
  | nil => intro agg url h; simpa using h
  | cons r rs ih =>
    intro agg url h
    rw [List.foldl_cons]
    apply ih
    by_cases hu : url = r.page_url
    · subst hu
      exact le_of_eq (keyCount_mapSet_self agg r.page_url (faviconB64 r.image_data) h)
    · rw [keyCount_mapSet_ne agg r.page_url url (faviconB64 r.image_data) hu]
      exact h

/-- What the reduce computes for a key: the encoding of the LAST row with
that `page_url` (in query order), else whatever the accumulator held. -/
theorem foldl_mapLookup (rows : List BookmarkFavicon) :
    ∀ (agg : FavMap) (url : String),
      mapLookup (rows.foldl
          (fun agg row => mapSet agg row.page_url (faviconB64 row.image_data)) agg) url =
        (rows.reverse.find? fun r => r.page_url == url).elim (mapLookup agg url)
          (fun r => some (faviconB64 r.image_data)) := by
  induction rows with
  | nil => intro agg url; rfl
  | cons r rs ih =>
    intro agg url
    rw [List.foldl_cons, ih]
    rw [List.reverse_cons, List.find?_append]
    cases hfind : rs.reverse.find? (fun q => q.page_url == url) with
    | some x => simp
    | none =>
      by_cases hp : (r.page_url == url) = true
      · have he : r.page_url = url := eq_of_beq hp
        subst he
        rw [List.find?_cons_of_pos (p := fun (q : BookmarkFavicon) => q.page_url == r.page_url) _ hp,
          Option.none_or, Option.elim_none, Option.elim_some]
        exact mapLookup_mapSet_self agg r.page_url (faviconB64 r.image_data)
      · have hne : url ≠ r.page_url := by
          intro e; exact hp (by rw [e]; exact beq_self_eq_true _)
        rw [List.find?_cons_of_neg (p := fun (q : BookmarkFavicon) => q.page_url == url) _ hp,
          List.find?_nil, Option.none_or, Option.elim_none, Option.elim_none]
        exact mapLookup_mapSet_ne agg r.page_url url (faviconB64 r.image_data) hne

/-- Claim C10: when several query rows share a `page_url`, the reduced
favicon map holds exactly one entry for that URL, and its value is the
base64 image string of the LAST such row in query order (later rows
overwrite earlier ones via `Map.set`). -/
theorem C10_last_row_wins (rows : List BookmarkFavicon) (url : String)
    (r : BookmarkFavicon)
    (h : rows.reverse.find? (fun row => row.page_url == url) = some r) :
    mapLookup (buildB64Map rows) url = some (faviconB64 r.image_data)
    ∧ keyCount (buildB64Map rows) url = 1 := by
  have hl : mapLookup (buildB64Map rows) url = some (faviconB64 r.image_data) := by
    unfold buildB64Map
    rw [foldl_mapLookup rows [] url, h, Option.elim_some]
  refine ⟨hl, ?_⟩
  have hle : keyCount (buildB64Map rows) url ≤ 1 := by
    unfold buildB64Map
    exact keyCount_buildB64Map_le rows [] url (by simp [keyCount])
  have hpos : 0 < keyCount (buildB64Map rows) url := by
    unfold keyCount
    rw [List.countP_pos_iff]
    cases hf : (buildB64Map rows).find? (fun p => p.1 == url) with
    | none => rw [mapLookup, hf] at hl; simp at hl
    | some q =>
      have hmem := List.mem_of_find?_eq_some hf
      have hpa := List.find?_some hf
      exact ⟨q, hmem, hpa⟩
  omega

/-- Claim C10 at a concrete input: two rows for `"u"` leave a single entry
holding the second row's encoding. -/
theorem C10_last_row_wins_witness :
    mapLookup (buildB64Map [⟨"u", [0]⟩, ⟨"u", [255]⟩]) "u" = some (faviconB64 [255])
    ∧ keyCount (buildB64Map [⟨"u", [0]⟩, ⟨"u", [255]⟩]) "u" = 1 :=
  C10_last_row_wins [⟨"u", [0]⟩, ⟨"u", [255]⟩] "u" ⟨"u", [255]⟩ (by decide)

end ChromeBookmarks
